import Mathlib

/-!
Verification of the rport session/registry core against its specification.

The Go sources are shallowly embedded: pure helpers become Lean functions,
the client registry becomes explicit state passing over an association list
(the in-memory `map[string]*Client` cache), and fallible operations return
`Except`/`Option`. Parts of the repository that are referenced but whose
source is not available (the `Client.Obsolete` helper, the REST handlers,
the agent's `connectionRequest`) are modelled from the specification and
from the expectations of the repository's own tests; each such definition
carries a doc comment starting with `Modelled from the spec:`.
-/

namespace Rport

/-! ## Interpreter validation (server/validation/interpreter.go) -/

/-- `chshare.CmdShell`: the `cmd` interpreter name. -/
def CmdShell : String := "cmd"

/-- `chshare.PowerShell`: the `powershell` interpreter name. -/
def PowerShell : String := "powershell"

/-- `chshare.Tacoscript`: the `tacoscript` interpreter name. -/
def Tacoscript : String := "tacoscript"

/-- `validInputInterpreter` from server/validation/interpreter.go. -/
def validInputInterpreter : List String := [CmdShell, PowerShell, Tacoscript]

/-- Embedding of `ValidateInterpreter` (server/validation/interpreter.go).
Returns `none` for success (Go `nil` error) and `some msg` for an error. -/
def ValidateInterpreter (interpreter : String) (isScript : Bool) : Option String :=
  if interpreter = "" then
    none
  else if !isScript && (interpreter == Tacoscript) then
    some (Tacoscript ++ " interpreter can't be used for commands execution")
  else if validInputInterpreter.contains interpreter then
    none
  else
    some ("expected interpreter to be one of: [cmd powershell tacoscript], actual: " ++ interpreter)

/-! ## Wildcard filters (server/clients/cr.go, clientMatchesFilter) -/

/-- Embedding of Go regexp matching for the fragment of patterns this code
produces: after `strings.ReplaceAll(filterValue, "*", ".*")` a filter value
whose only regex metacharacter is `*` compiles to a pattern made of literal
characters and `.*` pieces. `globMatchAnchored p v` decides whether that
pattern, ANCHORED at both ends, matches all of `v`; a `*` in `p` stands for
the `.*` piece. -/
def globMatchAnchored : List Char → List Char → Bool
  | [], s => s.isEmpty
  | c :: p, s =>
    if c = '*' then s.tails.any fun t => globMatchAnchored p t
    else
      match s with
      | [] => false
      | d :: s2 => c == d && globMatchAnchored p s2

/-- Go's `regexp.MatchString` is unanchored: it reports whether the pattern
matches any substring of the value. For the literal-and-star fragment that is
anchored matching of the pattern surrounded by `.*` on both sides. -/
def goRegexMatchString (p v : List Char) : Bool :=
  globMatchAnchored ('*' :: (p ++ ['*'])) v

/-- Embedding of the detection regex of clientMatchesFilter,
`regexp.MustCompile` of the pattern non-backslash-then-stars applied with
MatchString: true iff some character other than a backslash is immediately
followed by a star. A star at position 0 has no preceding character, so it is
never detected by this pattern. -/
def hasUnescapedWildCard : List Char → Bool
  | c1 :: c2 :: rest => (!(c1 == '\\') && (c2 == '*')) || hasUnescapedWildCard (c2 :: rest)
  | _ => false

/-- Embedding of one iteration of the value loop of clientMatchesFilter
(cr.go lines 269-291): if the detection regex finds an unescaped wildcard the
filter value is turned into a regex by replacing stars with dot-star and
matched UNANCHORED against the stringified field value; otherwise the two
strings are compared literally. (For values in the literal-and-star fragment
the compiled regex never fails, so the compile-error fallback branch of the
source is dead and is not modelled.) -/
def clientMatchesFilterValue (filterValue fieldValue : String) : Bool :=
  if hasUnescapedWildCard filterValue.data then
    goRegexMatchString filterValue.data fieldValue.data
  else
    filterValue == fieldValue

/-- Detection of an unescaped wildcard as the specification words it: any
star that is not preceded by a backslash, INCLUDING a star at position 0.
Defined from the spec for comparison with the source embedding. -/
def specHasUnescapedWildcardAux (prev : Option Char) : List Char → Bool
  | [] => false
  | c :: rest =>
    ((c == '*') && !(prev == some '\\')) || specHasUnescapedWildcardAux (some c) rest

/-- Wrapper of specHasUnescapedWildcardAux starting with no previous character. -/
def specHasUnescapedWildcard (s : List Char) : Bool :=
  specHasUnescapedWildcardAux none s

/-- The per-value match semantics the specification prescribes, defined from
the spec's words for comparison with the source embedding: a value with any
unescaped star (a leading one included) matches iff the ANCHORED regex with
each star replaced by dot-star matches the entire stringified field value;
otherwise the comparison is literal. -/
def specWildcardMatchValue (filterValue fieldValue : String) : Bool :=
  if specHasUnescapedWildcard filterValue.data then
    globMatchAnchored filterValue.data fieldValue.data
  else
    filterValue == fieldValue

/-! ## Clients and the registry (server/clients/cr.go) -/

/-- The server-side record of one agent. The stringified JSON map produced by
clientToMap (json.Marshal followed by json.Unmarshal into a map) is abstracted
as the explicit association list fieldMap, each value already passed through
fmt.Sprint. Times are integers. -/
structure Client where
  id : String
  clientAuthID : String
  disconnectedAt : Option Int
  allowedUserGroups : List String
  fieldMap : List (String × String)
deriving Repr, DecidableEq

/-- Modelled from the spec: Client.Obsolete (server/clients/client.go is not
under src/). An agent is obsolete when it is disconnected and
disconnected_at + keep_lost_clients is before now; a nil keep_lost_clients
keeps lost clients forever. -/
def Client.Obsolete (c : Client) (keepLostClients : Option Int) (now : Int) : Bool :=
  match c.disconnectedAt, keepLostClients with
  | some d, some k => decide (d + k < now)
  | _, _ => false

/-- Modelled from the spec: Client.HasAccess (server/clients/client.go is not
under src/). A user has access to a client when one of the user's groups is
among the client's allowed_user_groups. -/
def Client.HasAccess (c : Client) (groups : List String) : Bool :=
  groups.any fun g => c.allowedUserGroups.contains g

/-- The User interface of cr.go: IsAdmin and GetGroups. -/
structure User where
  isAdmin : Bool
  groups : List String

/-- One field/values filter (share/query.FilterOption, declared outside src/;
its Column and Values fields are read by clientMatchesFilter). -/
structure FilterOption where
  column : String
  values : List String

/-- Map lookup on an association list, as on the Go map. -/
def assocGet {α : Type} : List (String × α) → String → Option α
  | [], _ => none
  | (k, v) :: t, key => if k = key then some v else assocGet t key

/-- Map update on an association list, as assignment on the Go map. -/
def assocSet {α : Type} : List (String × α) → String → α → List (String × α)
  | [], key, v => [(key, v)]
  | (k, w) :: t, key, v => if k = key then (key, v) :: t else (k, w) :: assocSet t key v

/-- The in-memory state of ClientRepository: the cache map and
KeepLostClients. The optional persistence provider is passed to the
operations as a separate argument, and the registry lock is implicit in the
explicit state passing. -/
structure ClientRepository where
  clients : List (String × Client)
  keepLostClients : Option Int
deriving Repr, DecidableEq

/-- The responses of the optional ClientProvider, abstracted as the outcomes
of its calls. -/
structure ProviderBehavior where
  saveResult : Client → Except String Unit
  deleteObsoleteResult : Except String Unit

/-- Embedding of ClientRepository.Save (cr.go lines 65-77): with a provider
configured, persist first and report its failure without mutating the cache;
only after success (or without a provider) upsert the cache by id. -/
def ClientRepository.Save (provider : Option ProviderBehavior) (s : ClientRepository)
    (client : Client) : Except String Unit × ClientRepository :=
  match provider with
  | some p =>
    match p.saveResult client with
    | .error e => (.error ("failed to save a client: " ++ e), s)
    | .ok _ => (.ok (), { s with clients := assocSet s.clients client.id client })
  | none => (.ok (), { s with clients := assocSet s.clients client.id client })

/-- Embedding of ClientRepository.GetByID (cr.go lines 149-157): nil for an
unknown id and nil for an obsolete client. -/
def ClientRepository.GetByID (s : ClientRepository) (now : Int) (id : String) : Option Client :=
  match assocGet s.clients id with
  | none => none
  | some c => if c.Obsolete s.keepLostClients now then none else some c

/-- Embedding of getNonObsolete (cr.go lines 208-216). -/
def ClientRepository.getNonObsolete (s : ClientRepository) (now : Int) : List Client :=
  (s.clients.filter fun kv => !kv.2.Obsolete s.keepLostClients now).map Prod.snd

/-- Embedding of ClientRepository.GetAll (cr.go lines 183-187). -/
def ClientRepository.GetAll (s : ClientRepository) (now : Int) : List Client :=
  s.getNonObsolete now

/-- Embedding of ClientRepository.Count (cr.go lines 115-120). -/
def ClientRepository.Count (s : ClientRepository) (now : Int) : Nat :=
  (s.getNonObsolete now).length

/-- Embedding of ClientRepository.CountDisconnected (cr.go lines 130-146). -/
def ClientRepository.CountDisconnected (s : ClientRepository) (now : Int) : Nat :=
  ((s.getNonObsolete now).filter fun c => c.disconnectedAt.isSome).length

/-- Embedding of ClientRepository.GetAllByClientAuthID (cr.go lines 171-180). -/
def ClientRepository.GetAllByClientAuthID (s : ClientRepository) (now : Int)
    (clientAuthID : String) : List Client :=
  (s.GetAll now).filter fun c => c.clientAuthID == clientAuthID

/-- Embedding of clientMatchesFilter (cr.go lines 256-294): look the column up
in the stringified client map, error on an unsupported column, and accept when
some filter value matches. -/
def clientMatchesFilter (cl : Client) (f : FilterOption) : Except String Bool :=
  match assocGet cl.fieldMap f.column with
  | none => .error ("unsupported filter column: " ++ f.column)
  | some fieldValue => .ok (f.values.any fun v => clientMatchesFilterValue v fieldValue)

/-- Embedding of clientMatchesFilters (cr.go lines 242-254): all filters must
match; the first error aborts. -/
def clientMatchesFilters (cl : Client) : List FilterOption → Except String Bool
  | [] => .ok true
  | f :: rest =>
    match clientMatchesFilter cl f with
    | .error e => .error e
    | .ok b => if b then clientMatchesFilters cl rest else .ok false

/-- The loop of getNonObsoleteFiltered (cr.go lines 218-240): skip obsolete
clients, then clients a non-admin user has no access to, then apply the
filters; a filter error returns the result collected so far together with the
error. -/
def filteredLoop (keep : Option Int) (now : Int) (user : User) (fo : List FilterOption) :
    List (String × Client) → List Client × Option String
  | [] => ([], none)
  | (_, c) :: rest =>
    if c.Obsolete keep now then filteredLoop keep now user fo rest
    else if !user.isAdmin && !c.HasAccess user.groups then filteredLoop keep now user fo rest
    else
      match clientMatchesFilters c fo with
      | .error e => ([], some e)
      | .ok true =>
        let r := filteredLoop keep now user fo rest
        (c :: r.1, r.2)
      | .ok false => filteredLoop keep now user fo rest

/-- Embedding of ClientRepository.GetUserClients (cr.go lines 190-194), via
getNonObsoleteFiltered. -/
def ClientRepository.GetUserClients (s : ClientRepository) (now : Int) (user : User)
    (fo : List FilterOption) : List Client × Option String :=
  filteredLoop s.keepLostClients now user fo s.clients

/-- The cache part of DeleteObsolete (cr.go lines 102-111): evict every
obsolete client and return the evicted ones. -/
def deleteObsoleteCache (s : ClientRepository) (now : Int) :
    (List Client × Option String) × ClientRepository :=
  (((s.clients.filter fun kv => kv.2.Obsolete s.keepLostClients now).map Prod.snd, none),
    { s with clients := s.clients.filter fun kv => !kv.2.Obsolete s.keepLostClients now })

/-- Embedding of ClientRepository.DeleteObsolete (cr.go lines 94-112): with a
provider configured its failure is reported with a nil deleted list and an
untouched cache; otherwise obsolete clients are evicted from the cache and
returned. -/
def ClientRepository.DeleteObsolete (provider : Option ProviderBehavior)
    (s : ClientRepository) (now : Int) : (List Client × Option String) × ClientRepository :=
  match provider with
  | some p =>
    match p.deleteObsoleteResult with
    | .error e => (([], some ("failed to delete obsolete clients: " ++ e)), s)
    | .ok _ => deleteObsoleteCache s now
  | none => deleteObsoleteCache s now

/-! ## Jobs and the multi-client command handler

The REST handlers live outside src/ (only server/api_test.go is present);
they are modelled from the specification, with the repository's test as the
record of the expected observable behaviour. -/

/-- Job status (share/models, declared outside src/; the closed set of the
spec). -/
inductive JobStatus
  | running
  | successful
  | failed
  | unknown
deriving Repr, DecidableEq

/-- The reply of a successful run_cmd dispatch (share/comm.RunCmdResponse). -/
structure RunCmdResponse where
  pid : Int
  startedAt : Int
deriving Repr, DecidableEq

/-- The observable part of one Job row. -/
structure Job where
  jid : String
  clientID : String
  command : String
  status : JobStatus
  error : String
  pid : Option Int
  startedAt : Option Int
deriving Repr, DecidableEq

/-- Modelled from the spec: the job recorded for one client of a command
(createAndRunJob is not under src/). The server persists a running job and
issues run_cmd; if dispatch fails the job becomes failed and its error field
carries the dispatch error. -/
def jobAfterDispatch (dispatch : String → Except String RunCmdResponse)
    (jid cmd cid : String) : Job :=
  match dispatch cid with
  | .ok r =>
    { jid := jid, clientID := cid, command := cmd, status := .running, error := ""
      pid := some r.pid, startedAt := some r.startedAt }
  | .error e =>
    { jid := jid, clientID := cid, command := cmd, status := .failed, error := e
      pid := none, startedAt := none }

/-- Modelled from the spec: executeMultiClientJob in sequential mode
(execute_concurrently=false; not under src/). Clients are processed in order;
with abort_on_error the run stops right after the first failed job, so no
jobs exist for the clients after it. -/
def executeMultiClientJobSeq (dispatch : String → Except String RunCmdResponse)
    (jid cmd : String) (abortOnError : Bool) : List String → List Job
  | [] => []
  | cid :: rest =>
    if abortOnError && ((jobAfterDispatch dispatch jid cmd cid).status == JobStatus.failed) then
      [jobAfterDispatch dispatch jid cmd cid]
    else
      jobAfterDispatch dispatch jid cmd cid
        :: executeMultiClientJobSeq dispatch jid cmd abortOnError rest

/-- Modelled from the spec: the validation loop of handlePostMultiClientCommand
(not under src/). The first problem wins: an unknown client id (true flag,
HTTP 404) or a found but inactive client (false flag, HTTP 400). -/
def firstClientProblem (s : ClientRepository) (now : Int) : List String → Option (String × Bool)
  | [] => none
  | cid :: rest =>
    match s.GetByID now cid with
    | none => some (cid, true)
    | some c => if c.disconnectedAt.isSome then some (cid, false) else firstClientProblem s now rest

/-- Modelled from the spec: handlePostMultiClientCommand
(POST /api/v1/commands; not under src/). Fewer than two clients is a 400, an
unknown client a 404, an inactive client a 400; otherwise the request is
answered 200 and the stored multi-client job holds the jobs produced by the
sequential execution. -/
def handlePostMultiClientCommand (s : ClientRepository) (now : Int)
    (dispatch : String → Except String RunCmdResponse) (jid cmd : String)
    (clientIDs : List String) (abortOnError : Bool) : Nat × List Job :=
  if clientIDs.length < 2 then (400, [])
  else
    match firstClientProblem s now clientIDs with
    | some (_, true) => (404, [])
    | some (_, false) => (400, [])
    | none => (200, executeMultiClientJobSeq dispatch jid cmd abortOnError clientIDs)

/-! ## The client-auth delete handler -/

/-- One ClientAuth credential (server/clientsauth, declared outside src/). -/
structure ClientAuth where
  id : String
  password : String
deriving Repr, DecidableEq

/-- Modelled from the spec: handleDeleteClient
(DELETE /api/v1/clients-auth/:id; not under src/). A single-client provider
and a read-only store are 405, an unknown id is 404; a ClientAuth bound to at
least one non-obsolete client (active or disconnected) without force=true is
a 409 conflict that leaves the auth store and the client registry unchanged;
otherwise the credential is deleted (204). The force query parameter is none
when absent. -/
def handleDeleteClientAuth (authWrite : Bool) (singleClientAuth : Bool)
    (auths : List ClientAuth) (s : ClientRepository) (now : Int)
    (targetID : String) (force : Option Bool) : Nat × List ClientAuth × ClientRepository :=
  if singleClientAuth then (405, auths, s)
  else if !authWrite then (405, auths, s)
  else
    match auths.find? (fun a => a.id == targetID) with
    | none => (404, auths, s)
    | some _ =>
      let bound := s.GetAllByClientAuthID now targetID
      if !bound.isEmpty && !(force == some true) then (409, auths, s)
      else (204, auths.filter fun a => !(a.id == targetID), s)

/-! ## The agent's connection request (client/client.go, modelled)

The agent source is not under src/ (only client/client_test.go is); the
system-information gathering and its per-field fallbacks are modelled from
the specification and the expectations of TestConnectionRequest. -/

/-- The placeholder used for a system fact that could not be probed. -/
def UnknownValue : String := "unknown"

/-- The host-information facts (gopsutil host.InfoStat fields read by the
agent). -/
structure HostInfo where
  os : String
  platform : String
  platformFamily : String
  platformVersion : String
  virtualizationSystem : String
  virtualizationRole : String
deriving Repr, DecidableEq

/-- One CPU entry of the CPU probe. -/
structure CPUStat where
  family : String
  model : String
  modelName : String
  vendorID : String
deriving Repr, DecidableEq

/-- The result of the CPU probe: the CPU entries and the logical core count. -/
structure CPUInfo where
  cpus : List CPUStat
  numCores : Nat
deriving Repr, DecidableEq

/-- One interface address, already classified as IPv4 or IPv6. -/
structure IPAddress where
  isIPv4 : Bool
  addr : String
deriving Repr, DecidableEq

/-- The SystemInfo dependency of the agent: each probe either yields its fact
or fails. -/
structure SystemInfo where
  hostname : Except String String
  uname : Except String String
  hostInfo : Except String HostInfo
  cpuInfo : Except String CPUInfo
  memory : Except String Nat
  interfaceAddrs : Except String (List IPAddress)
  goArch : String
  timezone : String

/-- The identity part of the agent configuration used by connectionRequest. -/
structure ClientIdentity where
  id : String
  name : String
  tags : List String
  remotes : List String

/-- The connection_request payload (share.ConnectionRequest, declared outside
src/). -/
structure ConnectionRequest where
  version : String
  id : String
  name : String
  tags : List String
  remotes : List String
  os : String
  osArch : String
  osFamily : String
  osKernel : String
  osFullName : String
  osVersion : String
  osVirtualizationSystem : String
  osVirtualizationRole : String
  hostname : String
  cpuFamily : String
  cpuModel : String
  cpuModelName : String
  cpuVendor : String
  numCPUs : Nat
  memoryTotal : Nat
  timezone : String
  ipv4 : List String
  ipv6 : List String
deriving Repr, DecidableEq

/-- Go strings.Title of the lower-cased input: the first letter of every
word (a letter run preceded by a non-letter or the start) is upper-cased, the
rest lower-cased. Used for the human-readable platform name. -/
def titleLowerAux : List Char → Bool → List Char
  | [], _ => []
  | c :: rest, capNext =>
    (if capNext then c.toUpper else c.toLower) :: titleLowerAux rest (!c.isAlpha)

/-- String wrapper of titleLowerAux starting at a word boundary. -/
def titleLower (s : String) : String :=
  ⟨titleLowerAux s.data true⟩

/-- Modelled from the spec: the agent's connectionRequest (client/client.go is
not under src/). It is total with respect to probe failures: every failing
probe falls back to a placeholder instead of propagating an error. A failed
hostname, uname, host-info or CPU probe sets the affected string facts to
UnknownValue; the numeric facts (core count, total memory) fall back to zero,
as do the virtualization fields (empty string); a failed interface-address
probe yields empty IPv4 and IPv6 lists. On a Windows host the os fact is
composed from the host info, otherwise it is the uname output. Field
expectations follow TestConnectionRequest (client/client_test.go lines
65-293). -/
def connectionRequest (cfg : ClientIdentity) (si : SystemInfo) : ConnectionRequest :=
  { version := "0.0.0-src"
    id := cfg.id
    name := cfg.name
    tags := cfg.tags
    remotes := cfg.remotes
    os :=
      match si.hostInfo with
      | .ok hi =>
        if hi.os = "windows" then
          hi.platform ++ " " ++ hi.platformVersion ++ " " ++ hi.platformFamily
        else
          match si.uname with
          | .ok u => u
          | .error _ => UnknownValue
      | .error _ =>
        match si.uname with
        | .ok u => u
        | .error _ => UnknownValue
    osArch := si.goArch
    osFamily :=
      match si.hostInfo with
      | .ok hi => hi.platformFamily
      | .error _ => UnknownValue
    osKernel :=
      match si.hostInfo with
      | .ok hi => hi.os
      | .error _ => UnknownValue
    osFullName :=
      match si.hostInfo with
      | .ok hi => titleLower hi.platform ++ " " ++ hi.platformVersion
      | .error _ => UnknownValue
    osVersion :=
      match si.hostInfo with
      | .ok hi => hi.platformVersion
      | .error _ => UnknownValue
    osVirtualizationSystem :=
      match si.hostInfo with
      | .ok hi => hi.virtualizationSystem
      | .error _ => ""
    osVirtualizationRole :=
      match si.hostInfo with
      | .ok hi => hi.virtualizationRole
      | .error _ => ""
    hostname :=
      match si.hostname with
      | .ok h => h
      | .error _ => UnknownValue
    cpuFamily :=
      match si.cpuInfo with
      | .ok c =>
        match c.cpus with
        | st :: _ => st.family
        | [] => UnknownValue
      | .error _ => UnknownValue
    cpuModel :=
      match si.cpuInfo with
      | .ok c =>
        match c.cpus with
        | st :: _ => st.model
        | [] => UnknownValue
      | .error _ => UnknownValue
    cpuModelName :=
      match si.cpuInfo with
      | .ok c =>
        match c.cpus with
        | st :: _ => st.modelName
        | [] => UnknownValue
      | .error _ => UnknownValue
    cpuVendor :=
      match si.cpuInfo with
      | .ok c =>
        match c.cpus with
        | st :: _ => st.vendorID
        | [] => UnknownValue
      | .error _ => UnknownValue
    numCPUs :=
      match si.cpuInfo with
      | .ok c => c.numCores
      | .error _ => 0
    memoryTotal :=
      match si.memory with
      | .ok m => m
      | .error _ => 0
    timezone := si.timezone
    ipv4 :=
      match si.interfaceAddrs with
      | .ok l => (l.filter fun a => a.isIPv4).map IPAddress.addr
      | .error _ => []
    ipv6 :=
      match si.interfaceAddrs with
      | .ok l => (l.filter fun a => !a.isIPv4).map IPAddress.addr
      | .error _ => [] }

/-! ## Theorems -/

/-- C10: ValidateInterpreter accepts the empty interpreter string: for an
empty interpreter it returns nil for both commands and scripts, although the
empty string is not a member of the valid interpreter set. -/
theorem C10_validateInterpreter_accepts_empty :
    (∀ b : Bool, ValidateInterpreter "" b = none) ∧ "" ∉ validInputInterpreter := by
  refine ⟨fun b => ?_, by decide⟩
  simp [ValidateInterpreter]

/-- C4 counterexample: the empty string lies outside the set of valid
interpreters, yet ValidateInterpreter returns no error for it (for an ad-hoc
command here), refuting the claim that EVERY interpreter string outside the
set is rejected. -/
theorem C4_counterexample_empty_accepted :
    "" ∉ validInputInterpreter ∧ ValidateInterpreter "" false = none := by
  exact ⟨by decide, rfl⟩

/-- C4 (amended): for every NON-EMPTY interpreter string outside the set of
cmd, powershell and tacoscript, ValidateInterpreter returns an error;
tacoscript with isScript=false is an error; cmd and powershell with any
isScript value, and tacoscript with isScript=true, are accepted. -/
theorem C4_validateInterpreter_closed_set (s : String) (b : Bool)
    (hne : s ≠ "") (hnotin : s ∉ validInputInterpreter) :
    (ValidateInterpreter s b).isSome = true
    ∧ (ValidateInterpreter Tacoscript false).isSome = true
    ∧ ValidateInterpreter CmdShell b = none
    ∧ ValidateInterpreter PowerShell b = none
    ∧ ValidateInterpreter Tacoscript true = none := by
  refine ⟨?_, by decide, ?_, ?_, by decide⟩
  · unfold ValidateInterpreter
    rw [if_neg hne]
    by_cases h2 : (!b && (s == Tacoscript)) = true
    · rw [if_pos h2]; rfl
    · rw [if_neg h2]
      have hc : validInputInterpreter.contains s = false := by simpa using hnotin
      rw [if_neg (by simpa using hnotin)]
      rfl
  · cases b <;> simp [ValidateInterpreter, CmdShell, Tacoscript, validInputInterpreter, PowerShell]
  · cases b <;> simp [ValidateInterpreter, PowerShell, Tacoscript, validInputInterpreter, CmdShell]

/-- C4 witness: the interpreter string used by the repository's own test is
rejected. -/
theorem C4_validateInterpreter_closed_set_witness :
    (ValidateInterpreter "unsupported" false).isSome = true :=
  (C4_validateInterpreter_closed_set "unsupported" false (by decide) (by decide)).1

/-- C1: divergence of the source's wildcard filter from the specification's
semantics, evaluated at concrete inputs. A filter value with a LEADING
unescaped star against field value client-1 is treated by the source as a
literal (its detection pattern needs a preceding character) and does not
match, while the specification's anchored wildcard semantics matches; and a
value of letter-a-then-star against field xab matches in the source (Go
MatchString is unanchored) while the specification's anchored semantics does
not. -/
theorem C1_wildcard_divergence :
    (clientMatchesFilterValue "*1" "client-1" = false
      ∧ specWildcardMatchValue "*1" "client-1" = true)
    ∧ (clientMatchesFilterValue "a*" "xab" = true
      ∧ specWildcardMatchValue "a*" "xab" = false) := by
  refine ⟨⟨?_, ?_⟩, ?_, ?_⟩ <;> decide

/-- C2: with a persistence provider configured, ClientRepository.Save
persists first; when the provider's Save fails, Save reports the wrapped
error and the cache is untouched, so every subsequent GetByID returns the
same result as before the call. -/
theorem C2_save_persist_first (p : ProviderBehavior) (s : ClientRepository) (c : Client)
    (e : String) (h : p.saveResult c = .error e) :
    (ClientRepository.Save (some p) s c).1 = .error ("failed to save a client: " ++ e)
    ∧ (ClientRepository.Save (some p) s c).2 = s
    ∧ ∀ now id, ((ClientRepository.Save (some p) s c).2).GetByID now id = s.GetByID now id := by
  simp [ClientRepository.Save, h]

/-- A provider whose Save always fails, for the C2 witness. -/
def wErrProvider : ProviderBehavior :=
  { saveResult := fun _ => .error "db down", deleteObsoleteResult := .ok () }

/-- A connected sample client. -/
def wClient : Client :=
  { id := "client-1", clientAuthID := "user1", disconnectedAt := none,
    allowedUserGroups := [], fieldMap := [("id", "client-1")] }

/-- An empty repository with an hour of keep_lost_clients. -/
def wRepo : ClientRepository := { clients := [], keepLostClients := some 3600 }

/-- C2 witness: a concrete failing provider leaves a concrete repository
unchanged and surfaces the wrapped error. -/
theorem C2_save_persist_first_witness :
    (ClientRepository.Save (some wErrProvider) wRepo wClient).1
      = .error "failed to save a client: db down"
    ∧ (ClientRepository.Save (some wErrProvider) wRepo wClient).2 = wRepo :=
  ⟨(C2_save_persist_first wErrProvider wRepo wClient "db down" rfl).1,
   (C2_save_persist_first wErrProvider wRepo wClient "db down" rfl).2.1⟩

/-- Every client produced by the loop of getNonObsoleteFiltered is
non-obsolete, whatever the partial-result/error outcome. -/
theorem filteredLoop_non_obsolete (keep : Option Int) (now : Int) (user : User)
    (fo : List FilterOption) (l : List (String × Client)) (c : Client)
    (hc : c ∈ (filteredLoop keep now user fo l).1) : c.Obsolete keep now = false := by
  induction l with
  | nil => simp [filteredLoop] at hc
  | cons kv rest ih =>
    obtain ⟨k, x⟩ := kv
    unfold filteredLoop at hc
    by_cases h1 : x.Obsolete keep now = true
    · rw [if_pos h1] at hc
      exact ih hc
    · rw [if_neg h1] at hc
      simp only [Bool.not_eq_true] at h1
      by_cases h2 : (!user.isAdmin && !x.HasAccess user.groups) = true
      · rw [if_pos h2] at hc
        exact ih hc
      · rw [if_neg h2] at hc
        cases hm : clientMatchesFilters x fo with
        | error e =>
          rw [hm] at hc
          simp at hc
        | ok b =>
          rw [hm] at hc
          cases b with
          | true =>
            simp only [List.mem_cons] at hc
            rcases hc with hcx | hcr
            · rw [hcx]; exact h1
            · exact ih hcr
          | false => exact ih hc

/-- Removing the entries of an obsolete client from the cache does not change
the non-obsolete entries. -/
theorem filter_erase_obsolete (keep : Option Int) (now : Int) (c : Client)
    (hobs : c.Obsolete keep now = true) (l : List (String × Client)) :
    ((l.filter fun kv => !(kv.2 == c)).filter fun kv => !kv.2.Obsolete keep now)
      = l.filter fun kv => !kv.2.Obsolete keep now := by
  induction l with
  | nil => rfl
  | cons kv rest ih =>
    by_cases h : kv.2 = c
    · simp [h, hobs, ih]
    · have hbeq : (kv.2 == c) = false := by simpa using h
      simp [List.filter_cons, hbeq, ih]

/-- C3: an obsolete client (disconnected more than keep_lost_clients before
now) is hidden everywhere: GetByID of its id is nil; it is absent from GetAll
and from any GetUserClients result; and Count and CountDisconnected are
unchanged when its cache entries are erased, so neither counts it. -/
theorem C3_obsolete_excluded (s : ClientRepository) (now : Int) (id : String) (c : Client)
    (user : User) (fo : List FilterOption)
    (hfind : assocGet s.clients id = some c)
    (hobs : c.Obsolete s.keepLostClients now = true) :
    s.GetByID now id = none
    ∧ c ∉ s.GetAll now
    ∧ c ∉ (s.GetUserClients now user fo).1
    ∧ ClientRepository.Count
        { s with clients := s.clients.filter fun kv => !(kv.2 == c) } now = s.Count now
    ∧ ClientRepository.CountDisconnected
        { s with clients := s.clients.filter fun kv => !(kv.2 == c) } now
        = s.CountDisconnected now := by
  have hga : ClientRepository.getNonObsolete
      { s with clients := s.clients.filter fun kv => !(kv.2 == c) } now
      = s.getNonObsolete now := by
    unfold ClientRepository.getNonObsolete
    rw [filter_erase_obsolete s.keepLostClients now c hobs]
  refine ⟨?_, ?_, ?_, ?_, ?_⟩
  · simp [ClientRepository.GetByID, hfind, hobs]
  · intro hmem
    unfold ClientRepository.GetAll ClientRepository.getNonObsolete at hmem
    simp only [List.mem_map, List.mem_filter] at hmem
    obtain ⟨kv, ⟨_, hkeep⟩, hkvc⟩ := hmem
    rw [hkvc, hobs] at hkeep
    simp at hkeep
  · intro hmem
    have hne := filteredLoop_non_obsolete s.keepLostClients now user fo s.clients c hmem
    rw [hobs] at hne
    exact Bool.true_eq_false ▸ hne ▸ rfl
  · unfold ClientRepository.Count
    rw [hga]
  · unfold ClientRepository.CountDisconnected
    rw [hga]

/-- A disconnected client that has been lost longer than keep_lost_clients. -/
def wLostClient : Client :=
  { id := "lost-1", clientAuthID := "user1", disconnectedAt := some 0,
    allowedUserGroups := [], fieldMap := [("id", "lost-1")] }

/-- A repository whose only entry is obsolete at time 100. -/
def wLostRepo : ClientRepository :=
  { clients := [("lost-1", wLostClient)], keepLostClients := some 10 }

/-- C3 witness: at a concrete repository and clock the obsolete client is
hidden from GetByID and GetAll. -/
theorem C3_obsolete_excluded_witness :
    wLostRepo.GetByID 100 "lost-1" = none ∧ wLostClient ∉ wLostRepo.GetAll 100 :=
  ⟨(C3_obsolete_excluded wLostRepo 100 "lost-1" wLostClient
      { isAdmin := true, groups := [] } [] (by decide) (by decide)).1,
   (C3_obsolete_excluded wLostRepo 100 "lost-1" wLostClient
      { isAdmin := true, groups := [] } [] (by decide) (by decide)).2.1⟩

/-- Filtering with a predicate leaves nothing that its negation kept. -/
theorem filter_not_self {α : Type} (p : α → Bool) (l : List α) :
    (l.filter fun a => !p a).filter p = [] := by
  induction l with
  | nil => rfl
  | cons a t ih =>
    by_cases h : p a = true
    · simp [h, ih]
    · simp only [Bool.not_eq_true] at h
      simp [h, ih]

/-- Filtering twice with one predicate equals filtering once. -/
theorem filter_idem {α : Type} (q : α → Bool) (l : List α) :
    (l.filter q).filter q = l.filter q := by
  induction l with
  | nil => rfl
  | cons a t ih =>
    by_cases h : q a = true
    · simp [h, ih]
    · simp only [Bool.not_eq_true] at h
      simp [h, ih]

/-- The cache part of DeleteObsolete is idempotent: right after one pass, a
second pass at the same clock deletes nothing and keeps the cache as it is. -/
theorem deleteObsoleteCache_idem (s : ClientRepository) (now : Int) :
    (deleteObsoleteCache (deleteObsoleteCache s now).2 now).1.1 = []
    ∧ (deleteObsoleteCache (deleteObsoleteCache s now).2 now).2
        = (deleteObsoleteCache s now).2 := by
  have h2 : (deleteObsoleteCache s now).2
      = { clients := s.clients.filter fun kv => !kv.2.Obsolete s.keepLostClients now,
          keepLostClients := s.keepLostClients } := rfl
  rw [h2]
  constructor
  · exact congrArg (List.map Prod.snd)
      (filter_not_self (fun kv => kv.2.Obsolete s.keepLostClients now) s.clients)
  · exact congrArg (fun l => ClientRepository.mk l s.keepLostClients)
      (filter_idem (fun kv => !kv.2.Obsolete s.keepLostClients now) s.clients)

/-- C8: DeleteObsolete is idempotent at a fixed clock and with a fixed
provider behaviour: the second of two back-to-back calls returns an empty
deleted list and leaves the cache exactly as the first call left it. -/
theorem C8_deleteObsolete_idempotent (p : Option ProviderBehavior) (s : ClientRepository)
    (now : Int) :
    (ClientRepository.DeleteObsolete p
        (ClientRepository.DeleteObsolete p s now).2 now).1.1 = []
    ∧ (ClientRepository.DeleteObsolete p
        (ClientRepository.DeleteObsolete p s now).2 now).2
        = (ClientRepository.DeleteObsolete p s now).2 := by
  cases p with
  | none => exact deleteObsoleteCache_idem s now
  | some pb =>
    cases hres : pb.deleteObsoleteResult with
    | error e => simp [ClientRepository.DeleteObsolete, hres]
    | ok u =>
      simp only [ClientRepository.DeleteObsolete, hres]
      exact deleteObsoleteCache_idem s now

/-- The job recorded for a client carries that client's id. -/
theorem jobAfterDispatch_clientID (dispatch : String → Except String RunCmdResponse)
    (jid cmd cid : String) : (jobAfterDispatch dispatch jid cmd cid).clientID = cid := by
  unfold jobAfterDispatch
  cases dispatch cid <;> rfl

/-- A failing dispatch produces a failed job carrying the dispatch error. -/
theorem jobAfterDispatch_error (dispatch : String → Except String RunCmdResponse)
    (jid cmd cid e : String) (he : dispatch cid = .error e) :
    (jobAfterDispatch dispatch jid cmd cid).status = JobStatus.failed
    ∧ (jobAfterDispatch dispatch jid cmd cid).error = e := by
  unfold jobAfterDispatch
  rw [he]
  exact ⟨rfl, rfl⟩

/-- A successful dispatch produces a running job. -/
theorem jobAfterDispatch_ok (dispatch : String → Except String RunCmdResponse)
    (jid cmd cid : String) (r : RunCmdResponse) (hr : dispatch cid = .ok r) :
    (jobAfterDispatch dispatch jid cmd cid).status = JobStatus.running := by
  unfold jobAfterDispatch
  rw [hr]

/-- Every job of a sequential multi-client run is the dispatch record of one
of the requested clients. -/
theorem executeSeq_mem (dispatch : String → Except String RunCmdResponse)
    (jid cmd : String) (abort : Bool) (ids : List String) (j : Job)
    (hj : j ∈ executeMultiClientJobSeq dispatch jid cmd abort ids) :
    ∃ cid ∈ ids, j = jobAfterDispatch dispatch jid cmd cid := by
  induction ids with
  | nil => simp [executeMultiClientJobSeq] at hj
  | cons cid rest ih =>
    unfold executeMultiClientJobSeq at hj
    by_cases hb :
        (abort && ((jobAfterDispatch dispatch jid cmd cid).status == JobStatus.failed)) = true
    · rw [if_pos hb] at hj
      simp only [List.mem_singleton] at hj
      exact ⟨cid, by simp, hj⟩
    · rw [if_neg hb] at hj
      rcases List.mem_cons.mp hj with h | h
      · exact ⟨cid, by simp, h⟩
      · obtain ⟨c2, hc2, hcj⟩ := ih h
        exact ⟨c2, by simp [hc2], hcj⟩

/-- C5: for a valid multi-client command, the request is answered 200 even
when dispatching fails, and every job whose dispatch failed is stored with
status failed and the dispatch error in its error field. -/
theorem C5_dispatch_failure_job_failed (s : ClientRepository) (now : Int)
    (dispatch : String → Except String RunCmdResponse) (jid cmd : String)
    (ids : List String) (abort : Bool) (j : Job) (e : String)
    (hlen : 2 ≤ ids.length)
    (hvalid : firstClientProblem s now ids = none)
    (hj : j ∈ (handlePostMultiClientCommand s now dispatch jid cmd ids abort).2)
    (he : dispatch j.clientID = .error e) :
    (handlePostMultiClientCommand s now dispatch jid cmd ids abort).1 = 200
    ∧ j.status = JobStatus.failed ∧ j.error = e := by
  have hred : handlePostMultiClientCommand s now dispatch jid cmd ids abort
      = (200, executeMultiClientJobSeq dispatch jid cmd abort ids) := by
    unfold handlePostMultiClientCommand
    rw [if_neg (by omega), hvalid]
  rw [hred] at hj
  obtain ⟨cid, _, hjeq⟩ := executeSeq_mem dispatch jid cmd abort ids j hj
  have hcid : j.clientID = cid := by rw [hjeq, jobAfterDispatch_clientID]
  rw [hcid] at he
  have hfe := jobAfterDispatch_error dispatch jid cmd cid e he
  refine ⟨by rw [hred], ?_, ?_⟩
  · rw [hjeq]
    exact hfe.1
  · rw [hjeq]
    exact hfe.2

/-- An active client bound to wClient's credential, second of the pair used
by the multi-client witnesses. -/
def wClient2 : Client :=
  { id := "client-2", clientAuthID := "user1", disconnectedAt := none,
    allowedUserGroups := [], fieldMap := [("id", "client-2")] }

/-- A repository with two active clients, as in the repository's multi-client
command test. -/
def wCmdRepo : ClientRepository :=
  { clients := [("client-1", wClient), ("client-2", wClient2)], keepLostClients := some 3600 }

/-- A dispatch that fails for the first client and succeeds for the rest,
as in the repository's multi-client command test. -/
def wDispatch : String → Except String RunCmdResponse := fun cid =>
  if cid = "client-1" then .error "failed to send request: send fake error"
  else .ok { pid := 2, startedAt := 2 }

/-- C5 witness: with the failing dispatch of the test, the request is still
answered 200 and the first client's stored job is failed with the dispatch
error. -/
theorem C5_dispatch_failure_job_failed_witness :
    (handlePostMultiClientCommand wCmdRepo 0 wDispatch "jid-1" "/bin/date;foo;whoami"
        ["client-1", "client-2"] false).1 = 200
    ∧ (jobAfterDispatch wDispatch "jid-1" "/bin/date;foo;whoami" "client-1").status
        = JobStatus.failed
    ∧ (jobAfterDispatch wDispatch "jid-1" "/bin/date;foo;whoami" "client-1").error
        = "failed to send request: send fake error" :=
  C5_dispatch_failure_job_failed wCmdRepo 0 wDispatch "jid-1" "/bin/date;foo;whoami"
    ["client-1", "client-2"] false
    (jobAfterDispatch wDispatch "jid-1" "/bin/date;foo;whoami" "client-1")
    "failed to send request: send fake error"
    (by decide) (by decide) (by decide) rfl

/-- A sequential run with abort_on_error contains exactly the jobs of the
successfully dispatched prefix followed by the first failed job. -/
theorem executeSeq_abort_prefix (dispatch : String → Except String RunCmdResponse)
    (jid cmd : String) (pre : List String) (cid : String) (post : List String) (e : String)
    (hpre : ∀ a ∈ pre, ∃ r, dispatch a = Except.ok r)
    (hfail : dispatch cid = Except.error e) :
    executeMultiClientJobSeq dispatch jid cmd true (pre ++ cid :: post)
      = pre.map (jobAfterDispatch dispatch jid cmd)
        ++ [jobAfterDispatch dispatch jid cmd cid] := by
  induction pre with
  | nil =>
    simp only [List.nil_append, List.map_nil]
    unfold executeMultiClientJobSeq
    rw [if_pos]
    have hst := (jobAfterDispatch_error dispatch jid cmd cid e hfail).1
    simp [hst]
  | cons a pre ih =>
    obtain ⟨r, hr⟩ := hpre a (by simp)
    have hpre2 : ∀ x ∈ pre, ∃ r2, dispatch x = Except.ok r2 := fun x hx => hpre x (by simp [hx])
    simp only [List.cons_append, List.map_cons]
    unfold executeMultiClientJobSeq
    rw [if_neg]
    · rw [ih hpre2]
    · have hst := jobAfterDispatch_ok dispatch jid cmd a r hr
      simp [hst]

/-- C6: a sequential multi-client command with abort_on_error that is valid
at ingress stores exactly the jobs up to and including the first failed one:
nothing is created or dispatched for the clients after the failure. -/
theorem C6_abort_stops_after_first_failure (s : ClientRepository) (now : Int)
    (dispatch : String → Except String RunCmdResponse) (jid cmd : String)
    (pre : List String) (cid : String) (post : List String) (e : String)
    (hlen : 2 ≤ (pre ++ cid :: post).length)
    (hvalid : firstClientProblem s now (pre ++ cid :: post) = none)
    (hpre : ∀ a ∈ pre, ∃ r, dispatch a = Except.ok r)
    (hfail : dispatch cid = Except.error e) :
    handlePostMultiClientCommand s now dispatch jid cmd (pre ++ cid :: post) true
      = (200, pre.map (jobAfterDispatch dispatch jid cmd)
          ++ [jobAfterDispatch dispatch jid cmd cid]) := by
  unfold handlePostMultiClientCommand
  rw [if_neg (by omega), hvalid,
    executeSeq_abort_prefix dispatch jid cmd pre cid post e hpre hfail]

/-- C6 witness: the test's scenario — first client's dispatch fails with
abort_on_error — stores exactly one failed job. -/
theorem C6_abort_stops_after_first_failure_witness :
    handlePostMultiClientCommand wCmdRepo 0 wDispatch "jid-1" "/bin/date;foo;whoami"
        ["client-1", "client-2"] true
      = (200, [jobAfterDispatch wDispatch "jid-1" "/bin/date;foo;whoami" "client-1"]) :=
  C6_abort_stops_after_first_failure wCmdRepo 0 wDispatch "jid-1" "/bin/date;foo;whoami"
    [] "client-1" ["client-2"] "failed to send request: send fake error"
    (by decide) (by decide) (by intro a ha; exact absurd ha (List.not_mem_nil a)) rfl

/-- C7: deleting a ClientAuth without the force parameter while at least one
non-obsolete client (active or disconnected) is bound to it is a 409 conflict
that leaves the ClientAuth store and the client registry unchanged. -/
theorem C7_delete_clientauth_conflict (auths : List ClientAuth) (s : ClientRepository)
    (now : Int) (tid : String) (a : ClientAuth)
    (hfound : auths.find? (fun x => x.id == tid) = some a)
    (hbound : (s.GetAllByClientAuthID now tid).isEmpty = false) :
    handleDeleteClientAuth true false auths s now tid none = (409, auths, s) := by
  simp [handleDeleteClientAuth, hfound, hbound]

/-- A sample ClientAuth credential bound to wClient. -/
def wAuth : ClientAuth := { id := "user1", password := "pswd1" }

/-- A repository with one active client bound to wAuth. -/
def wAuthRepo : ClientRepository :=
  { clients := [("client-1", wClient)], keepLostClients := some 3600 }

/-- C7 witness: the concrete scenario of the repository's delete test — an
active bound client and no force parameter — yields 409 with both stores
unchanged. -/
theorem C7_delete_clientauth_conflict_witness :
    handleDeleteClientAuth true false [wAuth] wAuthRepo 0 "user1" none
      = (409, [wAuth], wAuthRepo) :=
  C7_delete_clientauth_conflict [wAuth] wAuthRepo 0 "user1" wAuth (by decide) (by decide)

/-- C9: connectionRequest is total with respect to system-information
failures. It always returns a well-formed request carrying the configured
identity, and each failing probe only degrades its own fields: hostname to
the unknown placeholder; the os fact to the placeholder when uname fails
(unless a Windows host info supplies it) and when both probes fail; the four
host-info facts to the placeholder on a host-info failure; the four CPU facts
to the placeholder and the core count to zero on a CPU failure; the memory
total to zero on a memory failure; and both address lists to empty on an
interface-address failure. -/
theorem C9_connectionRequest_total (cfg : ClientIdentity) (si : SystemInfo) :
    ((connectionRequest cfg si).id = cfg.id
      ∧ (connectionRequest cfg si).name = cfg.name
      ∧ (connectionRequest cfg si).tags = cfg.tags
      ∧ (connectionRequest cfg si).remotes = cfg.remotes)
    ∧ (∀ e, si.hostname = .error e → (connectionRequest cfg si).hostname = UnknownValue)
    ∧ (∀ e1 e2, si.uname = .error e1 → si.hostInfo = .error e2 →
        (connectionRequest cfg si).os = UnknownValue)
    ∧ (∀ e1 hi, si.uname = .error e1 → si.hostInfo = .ok hi → hi.os ≠ "windows" →
        (connectionRequest cfg si).os = UnknownValue)
    ∧ (∀ e, si.hostInfo = .error e →
        (connectionRequest cfg si).osFamily = UnknownValue
        ∧ (connectionRequest cfg si).osKernel = UnknownValue
        ∧ (connectionRequest cfg si).osFullName = UnknownValue
        ∧ (connectionRequest cfg si).osVersion = UnknownValue)
    ∧ (∀ e, si.cpuInfo = .error e →
        (connectionRequest cfg si).cpuFamily = UnknownValue
        ∧ (connectionRequest cfg si).cpuModel = UnknownValue
        ∧ (connectionRequest cfg si).cpuModelName = UnknownValue
        ∧ (connectionRequest cfg si).cpuVendor = UnknownValue
        ∧ (connectionRequest cfg si).numCPUs = 0)
    ∧ (∀ e, si.memory = .error e → (connectionRequest cfg si).memoryTotal = 0)
    ∧ (∀ e, si.interfaceAddrs = .error e →
        (connectionRequest cfg si).ipv4 = [] ∧ (connectionRequest cfg si).ipv6 = []) := by
  refine ⟨⟨rfl, rfl, rfl, rfl⟩, ?_, ?_, ?_, ?_, ?_, ?_, ?_⟩
  · intro e h
    simp [connectionRequest, h]
  · intro e1 e2 h1 h2
    simp [connectionRequest, h1, h2]
  · intro e1 hi h1 h2 hw
    simp [connectionRequest, h1, h2, hw]
  · intro e h
    simp [connectionRequest, h]
  · intro e h
    simp [connectionRequest, h]
  · intro e h
    simp [connectionRequest, h]
  · intro e h
    simp [connectionRequest, h]

/-- The identity configuration of the repository's connection-request test. -/
def wIdentity : ClientIdentity :=
  { id := "test-client-id", name := "test-name", tags := ["tag1", "tag2"],
    remotes := ["test-local:1234:test-remote:2345"] }

/-- A SystemInfo whose every probe fails, as in the all-errors case of the
repository's connection-request test. -/
def wAllErrSI : SystemInfo :=
  { hostname := .error "test error", uname := .error "test error"
    hostInfo := .error "test error", cpuInfo := .error "test error"
    memory := .error "test error", interfaceAddrs := .error "test error"
    goArch := "test-arch", timezone := "UTC (UTC+00:00)" }

/-- C9 witness: with every probe failing, the request still carries the
configured identity, the degraded facts are the unknown placeholder and the
address lists are empty. -/
theorem C9_connectionRequest_total_witness :
    (connectionRequest wIdentity wAllErrSI).id = "test-client-id"
    ∧ (connectionRequest wIdentity wAllErrSI).hostname = UnknownValue
    ∧ (connectionRequest wIdentity wAllErrSI).os = UnknownValue
    ∧ (connectionRequest wIdentity wAllErrSI).osFamily = UnknownValue
    ∧ (connectionRequest wIdentity wAllErrSI).cpuFamily = UnknownValue
    ∧ (connectionRequest wIdentity wAllErrSI).memoryTotal = 0
    ∧ (connectionRequest wIdentity wAllErrSI).ipv4 = []
    ∧ (connectionRequest wIdentity wAllErrSI).ipv6 = [] :=
  ⟨(C9_connectionRequest_total wIdentity wAllErrSI).1.1,
   (C9_connectionRequest_total wIdentity wAllErrSI).2.1 "test error" rfl,
   (C9_connectionRequest_total wIdentity wAllErrSI).2.2.1 "test error" "test error" rfl rfl,
   ((C9_connectionRequest_total wIdentity wAllErrSI).2.2.2.2.1 "test error" rfl).1,
   ((C9_connectionRequest_total wIdentity wAllErrSI).2.2.2.2.2.1 "test error" rfl).1,
   (C9_connectionRequest_total wIdentity wAllErrSI).2.2.2.2.2.2.1 "test error" rfl,
   ((C9_connectionRequest_total wIdentity wAllErrSI).2.2.2.2.2.2.2 "test error" rfl).1,
   ((C9_connectionRequest_total wIdentity wAllErrSI).2.2.2.2.2.2.2 "test error" rfl).2⟩

end Rport
